import Mathlib

/-
  Verification of the Akhi-ex community Q&A persistence core.

  The repository ships three variants of the same Express server:
    * src/server.js, first half  ("v1", the original version)
    * src/server.js, second half ("prod", the PRODUCTION DEPLOYMENT VERSION)
    * src/unnamed/part_000       ("part000", the COMPLETE FIXED VERSION)
  All three persist one JSON document { questions: [...] } and expose the
  same four operations: submit question, list questions, post reply, toggle
  like.  Below, each route handler's pure data transformation is embedded as
  a Lean function; external effects (the wall clock Date.now(), the ISO date
  string, the JSON parse outcome of the stored blob) are passed in as
  explicit parameters or enumerated as an inductive of possible outcomes.

  JS-specific conventions used in the embedding:
    * a possibly-absent request field is an Option;
    * the idiom  x || d  on strings (empty string is falsy) is orDefault;
    * the idiom  if (parentAnswerId)  on a number (0 is falsy) is truthyNat;
    * ids are Date.now() values, embedded as Nat;
    * question.likes is a JS number kept as a Nat; the source's
      Math.max(0, likes - 1) is Nat subtraction, which floors at 0 the same
      way.
-/

/-- A persisted Reply node (part_000 / prod shape; the v1 variant creates the
same object without the parentAnswerId key, modelled as parentAnswerId =
none).  replies is the ordered child sequence, giving an unbounded-depth
tree. -/
inductive Reply : Type where
  | mk : (id : Nat) → (content : String) → (author : String) → (isOwner : Bool) →
         (date : String) → (replies : List Reply) → (parentAnswerId : Option Nat) → Reply

def Reply.id : Reply → Nat
  | .mk i _ _ _ _ _ _ => i

def Reply.content : Reply → String
  | .mk _ c _ _ _ _ _ => c

def Reply.author : Reply → String
  | .mk _ _ a _ _ _ _ => a

def Reply.isOwner : Reply → Bool
  | .mk _ _ _ o _ _ _ => o

def Reply.date : Reply → String
  | .mk _ _ _ _ d _ _ => d

def Reply.replies : Reply → List Reply
  | .mk _ _ _ _ _ rs _ => rs

def Reply.parentAnswerId : Reply → Option Nat
  | .mk _ _ _ _ _ _ p => p

/-- A persisted Question (part_000 / prod shape: exactly the keys id, name,
email, question, timestamp, status, likes, likedBy, answers). -/
structure Question : Type where
  id : Nat
  name : String
  email : String
  question : String
  timestamp : String
  status : String
  likes : Nat
  likedBy : List String
  answers : List Reply

/-- A persisted Question as created by the v1 variant: the part_000 keys plus
ip and userAgent (always written by its submit handler), and response /
respondedAt (written only by its direct top-level owner-reply path; none
models the key being absent). -/
structure QuestionV1 : Type where
  id : Nat
  name : String
  email : String
  question : String
  timestamp : String
  ip : String
  userAgent : String
  status : String
  likes : Nat
  likedBy : List String
  answers : List Reply
  response : Option String
  respondedAt : Option String

/-- The JS idiom  s || d  for strings: an absent or empty string falls back
to the default (used for  name || 'Anonymous',  author || 'Anonymous',
email || ''). -/
def orDefault : Option String → String → String
  | none, d => d
  | some s, d => if s = "" then d else s

/-- The JS truthiness of a number-or-absent value:  if (parentAnswerId)  and
parentAnswerId || null  treat both an absent value and 0 as falsy. -/
def truthyNat : Option Nat → Option Nat
  | none => none
  | some p => if p = 0 then none else some p

/-- addReplyToParent from part_000 (lines 223-237), identical line for line
to prod's addReplyToParent and v1's findAndAddToParent: scan the reply
sequence in order; if the current node's id equals parentId, push the new
reply onto its replies and stop; otherwise search that node's subtree, and
only if that fails move on to the remaining siblings.  Returns the updated
forest together with the JS function's boolean result.  (The source guards
the recursive call with replies && replies.length > 0; recursing on an empty
list returns false, so the guard is behaviourally redundant and is dropped.
When a recursive search returns false the source has mutated nothing, which
the model mirrors by reusing the original sublist.) -/
def addReplyToParent : List Reply → Nat → Reply → List Reply × Bool
  | [], _, _ => ([], false)
  | Reply.mk i c a o d rs p :: rest, parentId, reply =>
    if i = parentId then
      (Reply.mk i c a o d (rs ++ [reply]) p :: rest, true)
    else
      match addReplyToParent rs parentId reply with
      | (rs2, true) => (Reply.mk i c a o d rs2 p :: rest, true)
      | (_, false) =>
        match addReplyToParent rest parentId reply with
        | (rest2, b) => (Reply.mk i c a o d rs p :: rest2, b)

/-- The ids of a reply forest listed in standard pre-order: a node first,
then its subtree, then its later siblings. -/
def preIds : List Reply → List Nat
  | [] => []
  | Reply.mk i _ _ _ _ rs _ :: rest => i :: (preIds rs ++ preIds rest)

/-- Modelled from the spec (section 4.3 Reply-Tree Operator): a pre-order
traversal of the whole forest threading an "already attached" flag; the
first node encountered whose id equals parentId receives the new reply
appended to its replies sequence, and once the flag is set every later node
is passed over unchanged (at most one attachment, first pre-order match
wins). -/
def attachSpecForest (parentId : Nat) (newReply : Reply) : Bool → List Reply → List Reply × Bool
  | att, [] => ([], att)
  | att, Reply.mk i c a o d rs p :: rest =>
    if att then
      (Reply.mk i c a o d rs p :: rest, true)
    else if i = parentId then
      let (rest2, att2) := attachSpecForest parentId newReply true rest
      (Reply.mk i c a o d (rs ++ [newReply]) p :: rest2, att2)
    else
      let (rs2, att1) := attachSpecForest parentId newReply false rs
      let (rest2, att2) := attachSpecForest parentId newReply att1 rest
      (Reply.mk i c a o d rs2 p :: rest2, att2)

/-- Executable model of the JavaScript String.prototype.trim call used by
every handler: drop leading and trailing whitespace characters.  (Core's
String.trim is not kernel-reducible, so the same computation is written
over the character list.) -/
def jsTrim (s : String) : String :=
  String.mk (((s.data.dropWhile Char.isWhitespace).reverse.dropWhile Char.isWhitespace).reverse)

/- ===================== submit question ===================== -/

/-- Outcome of the submit-question handler: the 400 validation rejection, or
success carrying the collection that is written back and the questionId
returned to the caller.  (The write-failure 500 path depends only on the
backend and changes no data; it is outside the claims.) -/
inductive SubmitResult : Type where
  | validationError
  | ok (questions : List Question) (questionId : Nat)

/-- The newQuestion object literal of part_000 lines 123-133 (identical in
prod lines 440-450): now is the Date.now() value, ts the ISO timestamp
string. -/
def newQuestion (name email : Option String) (qt : String) (now : Nat) (ts : String) : Question :=
  { id := now, name := orDefault name "Anonymous", email := orDefault email "",
    question := jsTrim qt, timestamp := ts, status := "pending",
    likes := 0, likedBy := [], answers := [] }

/-- The submit-question handler of part_000 lines 108-156: reject unless the
question text is present with trimmed length at least 5, otherwise append
the new Question to the loaded collection.  (The source guard
!question || question.trim().length < 5 treats the empty string as falsy;
an empty string also has trimmed length 0 < 5, so the Option match covers
both.) -/
def submitRoute (questions : List Question) (name email question : Option String)
    (now : Nat) (ts : String) : SubmitResult :=
  match question with
  | none => .validationError
  | some qt =>
    if (jsTrim qt).length < 5 then .validationError
    else .ok (questions ++ [newQuestion name email qt now ts]) now

/-- The collection on disk after a submit call: only the success path calls
writeQuestionsFile, so a validation rejection leaves the stored data as it
was. -/
def stateAfterSubmit (questions : List Question) (name email question : Option String)
    (now : Nat) (ts : String) : List Question :=
  match submitRoute questions name email question now ts with
  | .ok qs _ => qs
  | .validationError => questions

/-- The GET /api/questions handler: res.json(questionsData.questions || []). -/
def listQuestions (questions : Option (List Question)) : List Question :=
  questions.getD []

/- ===================== post reply ===================== -/

/-- The newReply object literal of part_000 lines 206-214 (identical in prod
lines 519-527): parentAnswerId || null stores null for an absent or falsy
parent id. -/
def mkNewReply (a : String) (author : Option String) (own : Bool) (pai : Option Nat)
    (now : Nat) (date : String) : Reply :=
  Reply.mk now (jsTrim a) (orDefault author "Anonymous") own date [] (truthyNat pai)

/-- The per-question body of the part_000 answer handler (lines 206-256,
identical in prod lines 519-566), applied to the Question located by
findIndex: build the new reply; when a truthy parentAnswerId is supplied,
try addReplyToParent; when that fails or no parent was supplied, push the
reply at top level and, if isOwner, set status to answered. -/
def answerQuestion (q : Question) (a : String) (author : Option String) (own : Bool)
    (pai : Option Nat) (now : Nat) (date : String) : Question × Reply :=
  let nr := mkNewReply a author own pai now date
  match truthyNat pai with
  | some pid =>
    let res := addReplyToParent q.answers pid nr
    if res.2 then ({ q with answers := res.1 }, nr)
    else
      ({ q with answers := q.answers ++ [nr],
                status := if own then "answered" else q.status }, nr)
  | none =>
    ({ q with answers := q.answers ++ [nr],
              status := if own then "answered" else q.status }, nr)

/-- The per-question body of the v1 answer handler (server.js lines 148-208).
Differences from part_000: the reply object has no parentAnswerId key; the
degraded branch (parent id supplied but not found, lines 184-192) pushes the
reply at top level WITHOUT touching status; only the direct top-level branch
(lines 193-208) marks the question answered, and it also writes the response
and respondedAt keys. -/
def answerQuestionV1 (q : QuestionV1) (a : String) (author : Option String) (own : Bool)
    (pai : Option Nat) (now : Nat) (date : String) : QuestionV1 × Reply :=
  let nr := Reply.mk now (jsTrim a) (orDefault author "Anonymous") own date [] none
  match truthyNat pai with
  | some pid =>
    let res := addReplyToParent q.answers pid nr
    if res.2 then ({ q with answers := res.1 }, nr)
    else ({ q with answers := q.answers ++ [nr] }, nr)
  | none =>
    if own then
      ({ q with answers := q.answers ++ [nr], status := "answered",
                response := some (jsTrim a), respondedAt := some date }, nr)
    else
      ({ q with answers := q.answers ++ [nr] }, nr)

/-- The pattern shared by the answer and like handlers:
questions.findIndex(q => q.id == id) followed by mutation of the question at
the found index, which is exactly an update of the first matching list
entry.  Returns none when findIndex yields -1. -/
def updateFirstMatch {β : Type} (qid : Nat) (f : Question → Question × β) :
    List Question → Option (List Question × β)
  | [] => none
  | q :: rest =>
    if q.id = qid then
      some ((f q).1 :: rest, (f q).2)
    else
      match updateFirstMatch qid f rest with
      | some (rest2, r) => some (q :: rest2, r)
      | none => none

/-- Outcome of the answer handler: 400 for an empty reply, 404 for an
unknown question id, or success carrying the written-back collection and the
new reply. -/
inductive ReplyResult : Type where
  | validationError
  | notFound
  | ok (questions : List Question) (reply : Reply)

/-- The answer handler's validation predicate, !answer ||
answer.trim().length === 0: the reply text is absent or trims to nothing. -/
def emptyAnswer : Option String → Prop
  | none => True
  | some a => jsTrim a = ""

instance : (a : Option String) → Decidable (emptyAnswer a)
  | none => .isTrue trivial
  | some a => if h : jsTrim a = "" then .isTrue h else .isFalse h

/-- The part_000 answer handler, lines 182-287: validate the reply text,
locate the question by id, apply answerQuestion to it, write back. -/
def answerRoute (questions : List Question) (qid : Nat) (answer author : Option String)
    (own : Bool) (pai : Option Nat) (now : Nat) (date : String) : ReplyResult :=
  match answer with
  | none => .validationError
  | some a =>
    if jsTrim a = "" then .validationError
    else
      match updateFirstMatch qid (fun q => answerQuestion q a author own pai now date) questions with
      | none => .notFound
      | some (qs2, r) => .ok qs2 r

/-- The collection on disk after an answer call: writeQuestionsFile runs
only on the success path, so both failure responses leave the stored data as
it was. -/
def stateAfterAnswer (questions : List Question) (qid : Nat) (answer author : Option String)
    (own : Bool) (pai : Option Nat) (now : Nat) (date : String) : List Question :=
  match answerRoute questions qid answer author own pai now date with
  | .ok qs _ => qs
  | _ => questions

/- ===================== toggle like ===================== -/

/-- The like-toggle body shared verbatim by all three variants (part_000
lines 306-320): if userId is already a member of likedBy, splice out its
first occurrence and set likes to Math.max(0, likes - 1) (Nat subtraction
floors at 0 the same way); otherwise push it and increment likes.  Returns
the updated question with the response payload likes (read after the
mutation) and isLiked (userIndex === -1). -/
def toggleLike (q : Question) (userId : String) : Question × Nat × Bool :=
  if userId ∈ q.likedBy then
    let q2 : Question := { q with likedBy := q.likedBy.erase userId, likes := q.likes - 1 }
    (q2, q2.likes, false)
  else
    let q2 : Question := { q with likedBy := q.likedBy ++ [userId], likes := q.likes + 1 }
    (q2, q2.likes, true)

/-- The userId default of part_000 line 294 and prod line 596:
'user_' + Date.now(). -/
def defaultUserId (now : Nat) : String :=
  "user_" ++ toString now

/-- Destructuring default of part_000 / prod: the supplied userId when the
request carries one, otherwise a fresh time-derived identifier.  (An ES6
destructuring default applies only when the property is absent or
undefined, so Option.getD models it exactly.) -/
def likeUserId (userId : Option String) (now : Nat) : String :=
  userId.getD (defaultUserId now)

/-- Destructuring default of the v1 like handler (server.js line 249): the
fixed identifier 'anonymous'. -/
def likeUserIdV1 (userId : Option String) : String :=
  userId.getD "anonymous"

/-- Outcome of the like handler: 404 for an unknown question id, or success
carrying the written-back collection and the response payload. -/
inductive LikeResult : Type where
  | notFound
  | ok (questions : List Question) (likes : Nat) (isLiked : Bool)

/-- The part_000 like handler, lines 289-344: resolve the userId default,
locate the question by id, toggle, write back. -/
def likeRoute (questions : List Question) (qid : Nat) (userId : Option String)
    (now : Nat) : LikeResult :=
  match updateFirstMatch qid (fun q => toggleLike q (likeUserId userId now)) questions with
  | none => .notFound
  | some (qs2, likes, isLiked) => .ok qs2 likes isLiked

/-- The collection on disk after a like call: writeQuestionsFile runs only
on the success path. -/
def stateAfterLike (questions : List Question) (qid : Nat) (userId : Option String)
    (now : Nat) : List Question :=
  match likeRoute questions qid userId now with
  | .ok qs _ _ => qs
  | .notFound => questions

/-- The data-model invariant of spec section 3 for one Question: likedBy is
a set (no duplicate members) whose cardinality the likes counter equals. -/
def likeInv (q : Question) : Prop :=
  q.likedBy.Nodup ∧ q.likes = q.likedBy.length

/- ===================== load (readQuestionsFile) ===================== -/

/-- The externally determined condition of the persisted blob when
readQuestionsFile runs, enumerating the branches the source distinguishes:
the file is missing, the read itself fails, the content is empty or
whitespace (data.trim() falsy), JSON.parse throws, or JSON.parse yields an
object whose questions field is the given list or is absent (none). -/
inductive StoredBlob : Type where
  | fileAbsent
  | readError
  | emptyContent
  | malformed
  | parsedObject (questions : Option (List Question))

/-- readQuestionsFile of part_000 lines 29-51, described by the questions
field of the collection it returns (none = the returned object has no
questions field): a missing file is created empty and {questions: []} is
returned; a failed read, empty content or parse error also yield
{questions: []}; but a successfully parsed object is returned AS IS, with no
normalization of a missing questions field.  The v1 readQuestionsFile
(server.js lines 18-29) behaves the same way (its missing-file case lands in
the catch). -/
def readQuestionsFile_part000 : StoredBlob → Option (List Question)
  | .fileAbsent => some []
  | .readError => some []
  | .emptyContent => some []
  | .malformed => some []
  | .parsedObject qf => qf

/-- readQuestionsFile of prod, server.js lines 366-397: as part_000, except
that a successfully parsed object missing the questions field is normalized
by setting parsed.questions = [] before returning. -/
def readQuestionsFile_prod : StoredBlob → Option (List Question)
  | .fileAbsent => some []
  | .readError => some []
  | .emptyContent => some []
  | .malformed => some []
  | .parsedObject qf => some (qf.getD [])

/- ===================== persisted field shapes ===================== -/

/-- The Question attribute names of spec section 3, in the order the model
lists them. -/
def specQuestionKeys : List String :=
  ["id", "name", "email", "question", "timestamp", "status", "likes", "likedBy", "answers"]

/-- The Reply attribute names of spec section 3 (parentAnswerId is listed as
optional and is kept separate). -/
def specReplyKeys : List String :=
  ["id", "content", "author", "isOwner", "date", "replies"]

/-- The JSON keys of the part_000 newQuestion literal, lines 123-133
(identical in prod lines 440-450), in source order. -/
def part000NewQuestionKeys : List String :=
  ["id", "name", "email", "question", "timestamp", "status", "likes", "likedBy", "answers"]

/-- The JSON keys of the part_000 newReply literal, lines 206-214 (identical
in prod lines 519-527), in source order. -/
def part000NewReplyKeys : List String :=
  ["id", "content", "author", "isOwner", "date", "replies", "parentAnswerId"]

/-- The JSON keys of the v1 newQuestion literal, server.js lines 67-79, in
source order: the spec shape plus ip and userAgent. -/
def v1NewQuestionKeys : List String :=
  ["id", "name", "email", "question", "timestamp", "ip", "userAgent", "status", "likes", "likedBy", "answers"]

/-- The JSON keys of the v1 newReply literal, server.js lines 148-155, in
source order (no parentAnswerId key). -/
def v1NewReplyKeys : List String :=
  ["id", "content", "author", "isOwner", "date", "replies"]

/-- The keys a persisted part_000 / prod Question serializes to:
JSON.stringify writes exactly the fields of the object, and no part_000 or
prod operation ever assigns a key outside the newQuestion literal. -/
def Question.persistedKeys (_ : Question) : List String :=
  part000NewQuestionKeys

/-- The keys a persisted v1 Question serializes to: the newQuestion literal
keys, followed by response / respondedAt when the owner-reply path
(server.js lines 203-207) has assigned them. -/
def QuestionV1.persistedKeys (q : QuestionV1) : List String :=
  v1NewQuestionKeys
    ++ (if q.response.isSome then ["response"] else [])
    ++ (if q.respondedAt.isSome then ["respondedAt"] else [])

/-- The v1 submit handler's new question (server.js lines 54-105): the
part_000 fields plus the request's ip and user-agent header. -/
def newQuestionV1 (name email : Option String) (qt : String) (now : Nat)
    (ts ip ua : String) : QuestionV1 :=
  { id := now, name := orDefault name "Anonymous", email := orDefault email "",
    question := jsTrim qt, timestamp := ts, ip := ip, userAgent := ua,
    status := "pending", likes := 0, likedBy := [], answers := [],
    response := none, respondedAt := none }

/- ===================== concrete sample data ===================== -/

/-- A reply forest used by witnesses: node 10 with child 11, then node 12. -/
def sampleForest : List Reply :=
  [Reply.mk 10 "a" "A" false "d1" [Reply.mk 11 "b" "B" false "d2" [] none] none,
   Reply.mk 12 "c" "C" false "d3" [] none]

/-- A fresh reply used by witnesses. -/
def sampleReply : Reply :=
  Reply.mk 20 "hello" "Anonymous" false "d4" [] (some 11)

/-- A well-formed stored Question used by witnesses. -/
def sampleQuestion : Question :=
  { id := 1, name := "Sara", email := "", question := "Why pray?", timestamp := "t",
    status := "pending", likes := 1, likedBy := ["u1"], answers := sampleForest }

/-- A Question whose stored likes counter has drifted above the likedBy
cardinality (legacy or hand-edited data the store loads without
validation). -/
def driftedQuestion : Question :=
  { id := 2, name := "N", email := "", question := "Why??", timestamp := "t",
    status := "pending", likes := 5, likedBy := [], answers := [] }

/-- A Question whose stored likes counter has drifted below the likedBy
cardinality: a member is present while likes is 0. -/
def driftedQuestionLow : Question :=
  { id := 3, name := "N", email := "", question := "Why??", timestamp := "t",
    status := "pending", likes := 0, likedBy := ["u"], answers := [] }

/-- A v1 Question with one existing top-level reply, used to exercise the v1
degraded owner-reply path. -/
def sampleQuestionV1 : QuestionV1 :=
  { id := 1, name := "N", email := "", question := "Why??", timestamp := "t",
    ip := "203.0.113.7", userAgent := "curl", status := "pending",
    likes := 0, likedBy := [], answers := [Reply.mk 10 "x" "A" false "d" [] none],
    response := none, respondedAt := none }

/- ===================== helper lemmas ===================== -/

theorem attachSpecForest_true (pid : Nat) (nr : Reply) :
    ∀ l : List Reply, attachSpecForest pid nr true l = (l, true)
  | [] => by simp [attachSpecForest]
  | Reply.mk i c a o d rs p :: rest => by simp [attachSpecForest]

theorem addReplyToParent_not_found (l : List Reply) (pid : Nat) (nr : Reply) :
    (addReplyToParent l pid nr).2 = false → (addReplyToParent l pid nr).1 = l := by
  induction l, pid, nr using addReplyToParent.induct with
  | case1 pid nr => simp [addReplyToParent]
  | case2 c a o d rs p rest pid nr => simp [addReplyToParent]
  | case3 i c a o d rs p rest pid nr hne rs2 hrs ih => simp [addReplyToParent, hne, hrs]
  | case4 i c a o d rs p rest pid nr hne fst hfst rest2 b hrest ih1 ih2 =>
    simp [addReplyToParent, hne, hfst, hrest]
    intro hb
    simpa [hrest] using ih2 (by simp [hrest, hb])

theorem addReplyToParent_found_iff (l : List Reply) (pid : Nat) (nr : Reply) :
    (addReplyToParent l pid nr).2 = true ↔ pid ∈ preIds l := by
  induction l, pid, nr using addReplyToParent.induct with
  | case1 pid nr => simp [addReplyToParent, preIds]
  | case2 c a o d rs p rest pid nr => simp [addReplyToParent, preIds]
  | case3 i c a o d rs p rest pid nr hne rs2 hrs ih =>
    simp [addReplyToParent, hne, hrs, preIds]
    exact Or.inr (Or.inl (by simpa [hrs] using ih))
  | case4 i c a o d rs p rest pid nr hne fst hfst rest2 b hrest ih1 ih2 =>
    simp [addReplyToParent, hne, hfst, hrest, preIds]
    constructor
    · intro hb
      right; right
      exact (by simpa [hrest, hb] using ih2 : pid ∈ preIds rest)
    · intro h
      rcases h with h | h | h
      · exact absurd h.symm hne
      · exact absurd (by simpa [hfst] using ih1.mpr h : False) id
      · simpa [hrest] using ih2.mpr h

theorem addReplyToParent_eq_spec (l : List Reply) (pid : Nat) (nr : Reply) :
    addReplyToParent l pid nr = attachSpecForest pid nr false l := by
  induction l, pid, nr using addReplyToParent.induct with
  | case1 pid nr => simp [addReplyToParent, attachSpecForest]
  | case2 c a o d rs p rest pid nr =>
    simp [addReplyToParent, attachSpecForest, attachSpecForest_true]
  | case3 i c a o d rs p rest pid nr hne rs2 hrs ih =>
    simp [addReplyToParent, attachSpecForest, hne, hrs, attachSpecForest_true]
    rw [← ih, hrs]
    simp [attachSpecForest_true]
  | case4 i c a o d rs p rest pid nr hne fst hfst rest2 b hrest ih1 ih2 =>
    have hfst2 : fst = rs := by
      have := addReplyToParent_not_found rs pid nr (by simp [hfst])
      simpa [hfst] using this
    simp [addReplyToParent, attachSpecForest, hne, hfst, hrest]
    rw [← ih1, hfst, ← ih2, hrest]
    simp [hfst2]

theorem updateFirstMatch_eq_none_iff {β : Type} (qid : Nat) (f : Question → Question × β)
    (l : List Question) :
    updateFirstMatch qid f l = none ↔ ∀ q ∈ l, q.id ≠ qid := by
  induction l with
  | nil => simp [updateFirstMatch]
  | cons q rest ih =>
    by_cases h : q.id = qid
    · simp [updateFirstMatch, h]
    · cases hrec : updateFirstMatch qid f rest with
      | none =>
        simp [updateFirstMatch, h, hrec]
        exact (ih.mp hrec)
      | some out =>
        simp [updateFirstMatch, h, hrec]
        by_contra hno
        push_neg at hno
        exact absurd (ih.mpr hno) (by simp [hrec])

theorem updateFirstMatch_isSome {β : Type} (qid : Nat) (f : Question → Question × β)
    (l : List Question) (h : ∃ q ∈ l, q.id = qid) :
    ∃ out, updateFirstMatch qid f l = some out := by
  cases hrec : updateFirstMatch qid f l with
  | none =>
    rcases h with ⟨q, hq, hid⟩
    exact absurd hid ((updateFirstMatch_eq_none_iff qid f l).mp hrec q hq)
  | some out => exact ⟨out, rfl⟩

theorem updateFirstMatch_forall {β : Type} (qid : Nat) (f : Question → Question × β)
    (P : Question → Prop) (hf : ∀ q, P q → P (f q).1) :
    ∀ (l l2 : List Question) (r : β), (∀ q ∈ l, P q) →
      updateFirstMatch qid f l = some (l2, r) → ∀ q2 ∈ l2, P q2 := by
  intro l
  induction l with
  | nil => simp [updateFirstMatch]
  | cons q rest ih =>
    intro l2 r hP hsome
    by_cases h : q.id = qid
    · simp [updateFirstMatch, h] at hsome
      rcases hsome with ⟨hl2, hr⟩
      subst hl2
      intro q2 hq2
      rcases List.mem_cons.mp hq2 with h2 | h2
      · subst h2
        exact hf q (hP q (List.mem_cons_self q rest))
      · exact hP q2 (List.mem_cons_of_mem q h2)
    · cases hrec : updateFirstMatch qid f rest with
      | none => simp [updateFirstMatch, h, hrec] at hsome
      | some out =>
        rcases out with ⟨rest2, r2⟩
        simp [updateFirstMatch, h, hrec] at hsome
        rcases hsome with ⟨hl2, hr⟩
        subst hl2
        intro q2 hq2
        rcases List.mem_cons.mp hq2 with h2 | h2
        · rw [h2]
          exact hP q (List.mem_cons_self q rest)
        · exact ih rest2 r2 (fun q3 hq3 => hP q3 (List.mem_cons_of_mem q hq3)) hrec q2 h2

theorem toggleLike_inv (q : Question) (u : String) (h : likeInv q) : likeInv (toggleLike q u).1 := by
  rcases h with ⟨hnd, hlen⟩
  by_cases hu : u ∈ q.likedBy
  · refine ⟨?_, ?_⟩
    · simpa [toggleLike, hu] using hnd.erase u
    · simp [toggleLike, hu, hlen, List.length_erase_of_mem hu]
  · refine ⟨?_, ?_⟩
    · simp [toggleLike, hu, List.nodup_append, hnd]
    · simp [toggleLike, hu, hlen]

theorem answerQuestion_keeps (q : Question) (a : String) (author : Option String) (own : Bool)
    (pai : Option Nat) (now : Nat) (date : String) :
    (answerQuestion q a author own pai now date).1.likes = q.likes
    ∧ (answerQuestion q a author own pai now date).1.likedBy = q.likedBy
    ∧ (answerQuestion q a author own pai now date).1.id = q.id := by
  unfold answerQuestion
  rcases htr : truthyNat pai with _ | pid
  · simp
  · by_cases hres : (addReplyToParent q.answers pid (mkNewReply a author own pai now date)).2 <;>
      simp [hres]

/- ===================== claim theorems ===================== -/

/-- Claim C1: for every reply forest and every parentAnswerId equal to the
id of some Reply in the forest, the attach operation appends the new Reply
to the first pre-order match, performs at most one attachment and stops at
the first match (expressed as equality with the spec's pre-order traversal
attachSpecForest, plus success of the search exactly when the id occurs in
the pre-order id listing); when no Reply has the id the forest is left
unchanged, the handler appends the new Reply at top level, and the call
still succeeds. -/
theorem c1_reply_attach_preorder :
    (∀ (forest : List Reply) (pid : Nat) (nr : Reply),
      addReplyToParent forest pid nr = attachSpecForest pid nr false forest)
    ∧ (∀ (forest : List Reply) (pid : Nat) (nr : Reply),
      ((addReplyToParent forest pid nr).2 = true ↔ pid ∈ preIds forest))
    ∧ (∀ (forest : List Reply) (pid : Nat) (nr : Reply),
      pid ∉ preIds forest → (addReplyToParent forest pid nr).1 = forest)
    ∧ (∀ (q : Question) (a : String) (author : Option String) (own : Bool) (pid now : Nat)
        (date : String),
      pid ∉ preIds q.answers →
        (answerQuestion q a author own (some pid) now date).1.answers
          = q.answers ++ [mkNewReply a author own (some pid) now date])
    ∧ (∀ (questions : List Question) (qid : Nat) (a : String) (author : Option String)
        (own : Bool) (pai : Option Nat) (now : Nat) (date : String),
      ¬ emptyAnswer (some a) → (∃ q ∈ questions, q.id = qid) →
        ∃ qs2 r, answerRoute questions qid (some a) author own pai now date
          = ReplyResult.ok qs2 r) := by
  refine ⟨addReplyToParent_eq_spec, addReplyToParent_found_iff, ?_, ?_, ?_⟩
  · intro forest pid nr h
    exact addReplyToParent_not_found forest pid nr
      (Bool.eq_false_iff.mpr (fun ht => h ((addReplyToParent_found_iff forest pid nr).mp ht)))
  · intro q a author own pid now date h
    by_cases hpid : pid = 0
    · simp [answerQuestion, truthyNat, hpid]
    · have hsnd : (addReplyToParent q.answers pid (mkNewReply a author own (some pid) now date)).2
          = false :=
        Bool.eq_false_iff.mpr (fun ht => h ((addReplyToParent_found_iff q.answers pid _).mp ht))
      simp [answerQuestion, truthyNat, hpid, hsnd]
  · intro questions qid a author own pai now date hne hex
    have hne2 : ¬ jsTrim a = "" := hne
    obtain ⟨out, hout⟩ :=
      updateFirstMatch_isSome qid (fun q => answerQuestion q a author own pai now date) questions hex
    rcases out with ⟨qs2, r⟩
    exact ⟨qs2, r, by simp [answerRoute, hne2, hout]⟩

/-- Witness for C1 at concrete inputs: id 5 occurs nowhere in sampleForest,
so the search leaves it unchanged and the handler appends at top level; and
the route succeeds on a valid reply to the stored question. -/
theorem c1_reply_attach_preorder_witness :
    ((5 : Nat) ∉ preIds sampleForest ∧ (addReplyToParent sampleForest 5 sampleReply).1 = sampleForest)
    ∧ (answerQuestion sampleQuestion "good point" none false (some 5) 21 "d5").1.answers
        = sampleQuestion.answers ++ [mkNewReply "good point" none false (some 5) 21 "d5"]
    ∧ ∃ qs2 r, answerRoute [sampleQuestion] 1 (some "good point") none false (some 11) 21 "d5"
        = ReplyResult.ok qs2 r := by
  have h5 : (5 : Nat) ∉ preIds sampleForest := by simp [sampleForest, preIds]
  have h5q : (5 : Nat) ∉ preIds sampleQuestion.answers := by
    simp [sampleQuestion, sampleForest, preIds]
  refine ⟨⟨h5, c1_reply_attach_preorder.2.2.1 sampleForest 5 sampleReply h5⟩,
          c1_reply_attach_preorder.2.2.2.1 sampleQuestion "good point" none false 5 21 "d5" h5q,
          c1_reply_attach_preorder.2.2.2.2 [sampleQuestion] 1 "good point" none false (some 11)
            21 "d5" (by decide) ⟨sampleQuestion, List.mem_singleton.mpr rfl, rfl⟩⟩

/-- Claim C2 (amended): for the part_000 / prod answer handler, a reply that
ends up at top level (no truthy parentAnswerId, or a supplied parent id the
search does not find — the degraded case) is appended to answers and flips
status to answered exactly when isOwner holds, while a reply attached as a
nested child leaves status unchanged even for an owner.  (The v1 handler
diverges in the degraded case: see the counterexample.) -/
theorem c2_owner_status_amended :
    (∀ (q : Question) (a : String) (author : Option String) (own : Bool) (pid now : Nat)
        (date : String),
      pid ≠ 0 →
      (addReplyToParent q.answers pid (mkNewReply a author own (some pid) now date)).2 = true →
      (answerQuestion q a author own (some pid) now date).1.status = q.status)
    ∧ (∀ (q : Question) (a : String) (author : Option String) (own : Bool) (pai : Option Nat)
        (now : Nat) (date : String),
      truthyNat pai = none →
        (answerQuestion q a author own pai now date).1.status
            = (if own then "answered" else q.status)
        ∧ (answerQuestion q a author own pai now date).1.answers
            = q.answers ++ [mkNewReply a author own pai now date])
    ∧ (∀ (q : Question) (a : String) (author : Option String) (own : Bool) (pid now : Nat)
        (date : String),
      pid ≠ 0 →
      (addReplyToParent q.answers pid (mkNewReply a author own (some pid) now date)).2 = false →
      (answerQuestion q a author own (some pid) now date).1.status
          = (if own then "answered" else q.status)
      ∧ (answerQuestion q a author own (some pid) now date).1.answers
          = q.answers ++ [mkNewReply a author own (some pid) now date]) := by
  refine ⟨?_, ?_, ?_⟩
  · intro q a author own pid now date hpid hfound
    simp [answerQuestion, truthyNat, hpid, hfound]
  · intro q a author own pai now date htr
    simp [answerQuestion, htr]
  · intro q a author own pid now date hpid hfound
    simp [answerQuestion, truthyNat, hpid, hfound]

/-- Witness for C2 at concrete inputs: an owner reply nested under reply 11
of the stored question leaves status pending, and a direct top-level owner
reply marks the question answered. -/
theorem c2_owner_status_witness :
    ((addReplyToParent sampleQuestion.answers 11 (mkNewReply "thanks" none true (some 11) 30 "d6")).2
        = true
      ∧ (answerQuestion sampleQuestion "thanks" none true (some 11) 30 "d6").1.status
        = sampleQuestion.status)
    ∧ (answerQuestion sampleQuestion "thanks" none true none 30 "d6").1.status = "answered" := by
  have hfound : (addReplyToParent sampleQuestion.answers 11
      (mkNewReply "thanks" none true (some 11) 30 "d6")).2 = true := by
    simp [sampleQuestion, sampleForest, addReplyToParent]
  refine ⟨⟨hfound, c2_owner_status_amended.1 sampleQuestion "thanks" none true 11 30 "d6"
      (by decide) hfound⟩, ?_⟩
  have h := (c2_owner_status_amended.2.1 sampleQuestion "thanks" none true none 30 "d6" rfl).1
  simpa using h

/-- Counterexample to C2 as stated: in the v1 handler, an owner reply whose
supplied parentAnswerId (99) matches nothing is appended at top level, yet
the question's status stays pending instead of becoming answered. -/
theorem c2_degraded_owner_counterexample :
    (answerQuestionV1 sampleQuestionV1 "hello there" none true (some 99) 20 "d2").1.status
      = "pending"
    ∧ (answerQuestionV1 sampleQuestionV1 "hello there" none true (some 99) 20 "d2").1.answers
        = sampleQuestionV1.answers ++ [Reply.mk 20 "hello there" "Anonymous" true "d2" [] none]
    ∧ ("pending" : String) ≠ "answered" := by
  have htrim : jsTrim "hello there" = "hello there" := by decide
  refine ⟨?_, ?_, by decide⟩ <;>
    simp [answerQuestionV1, sampleQuestionV1, truthyNat, addReplyToParent, htrim, orDefault]

/-- Claim C3 (amended): each of the three mutating operations preserves the
invariant that every stored Question's likes counter equals the cardinality
of its duplicate-free likedBy set (submit establishes it for the new
Question, post-reply never touches the like state, and the toggle keeps it);
but the toggle does not re-synchronize a counter that had already drifted —
see the counterexample. -/
theorem c3_likes_card_amended :
    (∀ (questions : List Question) (name email question : Option String) (now : Nat) (ts : String),
      (∀ q ∈ questions, likeInv q) →
        ∀ q ∈ stateAfterSubmit questions name email question now ts, likeInv q)
    ∧ (∀ (questions : List Question) (qid : Nat) (answer author : Option String) (own : Bool)
        (pai : Option Nat) (now : Nat) (date : String),
      (∀ q ∈ questions, likeInv q) →
        ∀ q ∈ stateAfterAnswer questions qid answer author own pai now date, likeInv q)
    ∧ (∀ (questions : List Question) (qid : Nat) (userId : Option String) (now : Nat),
      (∀ q ∈ questions, likeInv q) →
        ∀ q ∈ stateAfterLike questions qid userId now, likeInv q) := by
  refine ⟨?_, ?_, ?_⟩
  · intro questions name email question now ts hP q hq
    cases question with
    | none => exact hP q (by simpa [stateAfterSubmit, submitRoute] using hq)
    | some qt =>
      by_cases h5 : (jsTrim qt).length < 5
      · exact hP q (by simpa [stateAfterSubmit, submitRoute, h5] using hq)
      · have hq2 : q ∈ questions ∨ q = newQuestion name email qt now ts := by
          simpa [stateAfterSubmit, submitRoute, h5, List.mem_append] using hq
        rcases hq2 with h | h
        · exact hP q h
        · rw [h]
          exact ⟨List.nodup_nil, rfl⟩
  · intro questions qid answer author own pai now date hP q hq
    cases answer with
    | none => exact hP q (by simpa [stateAfterAnswer, answerRoute] using hq)
    | some a =>
      by_cases h : jsTrim a = ""
      · exact hP q (by simpa [stateAfterAnswer, answerRoute, h] using hq)
      · cases hrec : updateFirstMatch qid
            (fun q2 => answerQuestion q2 a author own pai now date) questions with
        | none => exact hP q (by simpa [stateAfterAnswer, answerRoute, h, hrec] using hq)
        | some out =>
          rcases out with ⟨l2, r⟩
          have hq2 : q ∈ l2 := by simpa [stateAfterAnswer, answerRoute, h, hrec] using hq
          refine updateFirstMatch_forall qid _ likeInv ?_ questions l2 r hP hrec q hq2
          intro q2 h2
          rcases answerQuestion_keeps q2 a author own pai now date with ⟨hl, hb, _⟩
          exact ⟨by rw [hb]; exact h2.1, by rw [hl, hb]; exact h2.2⟩
  · intro questions qid userId now hP q hq
    cases hrec : updateFirstMatch qid
        (fun q2 => toggleLike q2 (likeUserId userId now)) questions with
    | none => exact hP q (by simpa [stateAfterLike, likeRoute, hrec] using hq)
    | some out =>
      rcases out with ⟨l2, r⟩
      have hq2 : q ∈ l2 := by simpa [stateAfterLike, likeRoute, hrec] using hq
      exact updateFirstMatch_forall qid _ likeInv
        (fun q2 h2 => toggleLike_inv q2 (likeUserId userId now) h2) questions l2 r hP hrec q hq2

/-- Witness for C3 at concrete inputs: the stored singleton collection
satisfies the invariant, and still does after a like toggle on it. -/
theorem c3_likes_card_witness :
    (∀ q ∈ [sampleQuestion], likeInv q)
    ∧ ∀ q ∈ stateAfterLike [sampleQuestion] 1 (some "u2") 0, likeInv q := by
  have hP : ∀ q ∈ [sampleQuestion], likeInv q := by
    intro q hq
    rw [List.mem_singleton.mp hq]
    exact ⟨by simp [sampleQuestion], by simp [sampleQuestion]⟩
  exact ⟨hP, c3_likes_card_amended.2.2 [sampleQuestion] 1 (some "u2") 0 hP⟩

/-- Counterexample to C3 as stated: toggling a like on a question whose
stored counter had drifted (likes 5, likedBy empty) yields likes 6 against a
likedBy of cardinality 1 — the toggle does not re-derive likes from
likedBy. -/
theorem c3_drift_counterexample :
    (stateAfterLike [driftedQuestion] 2 (some "u9") 0).map Question.likes = [6]
    ∧ (stateAfterLike [driftedQuestion] 2 (some "u9") 0).map (fun q => q.likedBy.length) = [1]
    ∧ (6 : Nat) ≠ 1 := by
  refine ⟨?_, ?_, by decide⟩ <;>
    simp [stateAfterLike, likeRoute, updateFirstMatch, toggleLike, driftedQuestion, likeUserId]

/-- Claim C4 (amended): on any Question satisfying the data-model invariant
(likes equals the cardinality of the duplicate-free likedBy set), two
successive toggles with the same userId restore the original likes count and
the original likedBy membership.  On drifted questions outside the
invariant this fails — see the counterexample. -/
theorem c4_double_toggle_amended (q : Question) (u : String) (hnd : q.likedBy.Nodup)
    (hlen : q.likes = q.likedBy.length) :
    (toggleLike (toggleLike q u).1 u).1.likes = q.likes
    ∧ ∀ x, (x ∈ (toggleLike (toggleLike q u).1 u).1.likedBy ↔ x ∈ q.likedBy) := by
  by_cases hu : u ∈ q.likedBy
  · have hpos : 1 ≤ q.likedBy.length := List.length_pos.mpr (List.ne_nil_of_mem hu)
    constructor
    · simp [toggleLike, hu, hnd.not_mem_erase, hlen]
      omega
    · intro x
      simp [toggleLike, hu, hnd.not_mem_erase, hnd.mem_erase_iff]
      by_cases hx : x = u
      · simp [hx, hu]
      · simp [hx]
  · have herase : (q.likedBy ++ [u]).erase u = q.likedBy := by
      rw [List.erase_append_right _ (by simpa using hu)]
      simp
    constructor
    · simp [toggleLike, hu, herase]
    · intro x
      simp [toggleLike, hu, herase]

/-- Witness for C4 at a concrete input: the stored sample question satisfies
the invariant and a double toggle with a fresh user restores its like
state. -/
theorem c4_double_toggle_witness :
    sampleQuestion.likedBy.Nodup
    ∧ sampleQuestion.likes = sampleQuestion.likedBy.length
    ∧ ((toggleLike (toggleLike sampleQuestion "u2").1 "u2").1.likes = sampleQuestion.likes
       ∧ ∀ x, (x ∈ (toggleLike (toggleLike sampleQuestion "u2").1 "u2").1.likedBy
            ↔ x ∈ sampleQuestion.likedBy)) := by
  have h1 : sampleQuestion.likedBy.Nodup := by simp [sampleQuestion]
  have h2 : sampleQuestion.likes = sampleQuestion.likedBy.length := by simp [sampleQuestion]
  exact ⟨h1, h2, c4_double_toggle_amended sampleQuestion "u2" h1 h2⟩

/-- Counterexample to C4 as stated: on a drifted question with likes 0 but a
member in likedBy, removing floors at 0 and re-adding increments, so the
toggle pair ends with likes 1 instead of the original 0. -/
theorem c4_drift_counterexample :
    (toggleLike (toggleLike driftedQuestionLow "u").1 "u").1.likes = 1
    ∧ driftedQuestionLow.likes = 0
    ∧ (1 : Nat) ≠ 0 :=
  ⟨rfl, rfl, by decide⟩

/-- Claim C5: a submission whose question text is absent or has trimmed
length below 5 is rejected with the validation error, and the stored
collection is exactly what it was before the call. -/
theorem c5_short_question_rejected (questions : List Question) (name email : Option String)
    (question : Option String) (now : Nat) (ts : String)
    (h : question = none ∨ ∃ qt, question = some qt ∧ (jsTrim qt).length < 5) :
    submitRoute questions name email question now ts = SubmitResult.validationError
    ∧ stateAfterSubmit questions name email question now ts = questions := by
  rcases h with h | ⟨qt, hq, h5⟩
  · subst h
    exact ⟨rfl, rfl⟩
  · subst hq
    exact ⟨by simp [submitRoute, h5], by simp [stateAfterSubmit, submitRoute, h5]⟩

/-- Witness for C5 at a concrete input: the two-character question is
rejected and an empty stored collection stays empty. -/
theorem c5_short_question_witness :
    submitRoute [] none none (some "hi") 7 "ts" = SubmitResult.validationError
    ∧ stateAfterSubmit [] none none (some "hi") 7 "ts" = [] :=
  c5_short_question_rejected [] none none (some "hi") 7 "ts" (Or.inr ⟨"hi", rfl, by decide⟩)

/-- Claim C6: a valid submission (trimmed length at least 5) appends a
Question whose question field is the trimmed text, whose name defaults to
Anonymous when absent, with status pending, zero likes, empty likedBy and
empty answers, its id being the value returned to the caller; the new
Question is in the subsequent listQuestions result. -/
theorem c6_valid_submission (questions : List Question) (name email : Option String)
    (qt : String) (now : Nat) (ts : String) (h : ¬ (jsTrim qt).length < 5) :
    submitRoute questions name email (some qt) now ts
      = SubmitResult.ok (questions ++ [newQuestion name email qt now ts]) now
    ∧ newQuestion name email qt now ts
        ∈ listQuestions (some (questions ++ [newQuestion name email qt now ts]))
    ∧ (newQuestion name email qt now ts).question = jsTrim qt
    ∧ (name = none → (newQuestion name email qt now ts).name = "Anonymous")
    ∧ (newQuestion name email qt now ts).status = "pending"
    ∧ (newQuestion name email qt now ts).likes = 0
    ∧ (newQuestion name email qt now ts).likedBy = []
    ∧ (newQuestion name email qt now ts).answers = []
    ∧ (newQuestion name email qt now ts).id = now := by
  refine ⟨by simp [submitRoute, h], by simp [listQuestions], rfl, ?_, rfl, rfl, rfl, rfl, rfl⟩
  intro hn
  subst hn
  rfl

/-- Witness for C6 at a concrete input. -/
theorem c6_valid_submission_witness :
    ¬ (jsTrim "Why pray five times a day?").length < 5
    ∧ submitRoute [] none none (some "Why pray five times a day?") 7 "ts"
        = SubmitResult.ok ([] ++ [newQuestion none none "Why pray five times a day?" 7 "ts"]) 7
    ∧ (newQuestion none none "Why pray five times a day?" 7 "ts").status = "pending" := by
  have h : ¬ (jsTrim "Why pray five times a day?").length < 5 := by decide
  have hc := c6_valid_submission [] none none "Why pray five times a day?" 7 "ts" h
  exact ⟨h, hc.1, hc.2.2.2.2.1⟩

/-- Claim C7 (amended): in every variant, load degrades to {questions: []}
for a missing file, a failed read, empty content and unparseable content;
the prod variant additionally normalizes a parsed object with no questions
field (so its load always yields a collection with a questions list), but
the part_000 / v1 readQuestionsFile returns such an object unnormalized —
see the counterexample. -/
theorem c7_load_degrades_amended :
    (∀ b : StoredBlob, (readQuestionsFile_prod b).isSome)
    ∧ readQuestionsFile_prod StoredBlob.fileAbsent = some []
    ∧ readQuestionsFile_prod StoredBlob.readError = some []
    ∧ readQuestionsFile_prod StoredBlob.emptyContent = some []
    ∧ readQuestionsFile_prod StoredBlob.malformed = some []
    ∧ readQuestionsFile_prod (StoredBlob.parsedObject none) = some []
    ∧ (∀ qs : List Question, readQuestionsFile_prod (StoredBlob.parsedObject (some qs)) = some qs)
    ∧ readQuestionsFile_part000 StoredBlob.fileAbsent = some []
    ∧ readQuestionsFile_part000 StoredBlob.readError = some []
    ∧ readQuestionsFile_part000 StoredBlob.emptyContent = some []
    ∧ readQuestionsFile_part000 StoredBlob.malformed = some [] := by
  refine ⟨?_, rfl, rfl, rfl, rfl, rfl, fun qs => rfl, rfl, rfl, rfl, rfl⟩
  intro b
  cases b <;> simp [readQuestionsFile_prod]

/-- Counterexample to C7 as stated: part_000's load of a parseable object
with no questions field returns it as is — the result is not the empty
collection {questions: []}. -/
theorem c7_missing_questions_counterexample :
    readQuestionsFile_part000 (StoredBlob.parsedObject none) = none
    ∧ (none : Option (List Question)) ≠ some [] :=
  ⟨rfl, by simp⟩

/-- Claim C8 (amended): part_000 / prod persist Questions and Replies with
exactly the data-model field names (the reply shape including the optional
parentAnswerId); the v1 variant violates the shape: its submit writes ip and
userAgent on every new Question, and its direct owner-reply path adds
response and respondedAt — none of which are data-model fields. -/
theorem c8_persisted_shape_amended :
    part000NewQuestionKeys = specQuestionKeys
    ∧ part000NewReplyKeys = specReplyKeys ++ ["parentAnswerId"]
    ∧ (∀ q : Question, q.persistedKeys = specQuestionKeys)
    ∧ v1NewReplyKeys = specReplyKeys
    ∧ (∀ (name email : Option String) (qt : String) (now : Nat) (ts ip ua : String),
        "ip" ∈ (newQuestionV1 name email qt now ts ip ua).persistedKeys
        ∧ "userAgent" ∈ (newQuestionV1 name email qt now ts ip ua).persistedKeys)
    ∧ specQuestionKeys.contains "ip" = false
    ∧ specQuestionKeys.contains "userAgent" = false
    ∧ (∀ (q : QuestionV1) (a : String) (author : Option String) (now : Nat) (date : String),
        ((answerQuestionV1 q a author true none now date).1).persistedKeys
          = v1NewQuestionKeys ++ ["response", "respondedAt"])
    ∧ specQuestionKeys.contains "response" = false
    ∧ specQuestionKeys.contains "respondedAt" = false := by
  refine ⟨rfl, rfl, fun q => rfl, rfl, ?_, by decide, by decide, ?_, by decide, by decide⟩
  · intro name email qt now ts ip ua
    exact ⟨by simp [newQuestionV1, QuestionV1.persistedKeys, v1NewQuestionKeys],
           by simp [newQuestionV1, QuestionV1.persistedKeys, v1NewQuestionKeys]⟩
  · intro q a author now date
    simp [answerQuestionV1, truthyNat, QuestionV1.persistedKeys]

/-- Counterexample to C8 as stated: the v1 submit operation persists a
Question carrying the key ip, which is not among the data-model Question
fields. -/
theorem c8_extra_fields_counterexample :
    "ip" ∈ (newQuestionV1 (some "Sara") none "Why is patience rewarded?" 7 "ts"
        "203.0.113.7" "curl").persistedKeys
    ∧ specQuestionKeys.contains "ip" = false := by
  refine ⟨?_, by decide⟩
  simp [newQuestionV1, QuestionV1.persistedKeys, v1NewQuestionKeys]

/-- Claim C9 (amended): the answer handler returns the validation error
exactly when the reply text is absent or trims to nothing (this check runs
first), and the not-found error exactly when the text is valid and no stored
Question has the supplied id; in both failure cases the stored collection is
unchanged.  The claim's unconditional reading of the not-found condition is
false on the overlap — see the counterexample. -/
theorem c9_reply_errors_amended (questions : List Question) (qid : Nat)
    (answer author : Option String) (own : Bool) (pai : Option Nat) (now : Nat) (date : String) :
    (answerRoute questions qid answer author own pai now date = ReplyResult.validationError
        ↔ emptyAnswer answer)
    ∧ (answerRoute questions qid answer author own pai now date = ReplyResult.notFound
        ↔ (¬ emptyAnswer answer ∧ ∀ q ∈ questions, q.id ≠ qid))
    ∧ (emptyAnswer answer →
        stateAfterAnswer questions qid answer author own pai now date = questions)
    ∧ ((∀ q ∈ questions, q.id ≠ qid) →
        stateAfterAnswer questions qid answer author own pai now date = questions) := by
  cases answer with
  | none =>
    refine ⟨by simp [answerRoute, emptyAnswer], by simp [answerRoute, emptyAnswer], ?_, ?_⟩ <;>
      simp [stateAfterAnswer, answerRoute]
  | some a =>
    by_cases h : jsTrim a = ""
    · refine ⟨by simp [answerRoute, emptyAnswer, h], by simp [answerRoute, emptyAnswer, h],
        ?_, ?_⟩ <;> simp [stateAfterAnswer, answerRoute, h]
    · cases hrec : updateFirstMatch qid
          (fun q => answerQuestion q a author own pai now date) questions with
      | none =>
        have hall := (updateFirstMatch_eq_none_iff qid _ questions).mp hrec
        refine ⟨?_, ?_, ?_, ?_⟩
        · simp [answerRoute, emptyAnswer, h, hrec]
        · constructor
          · intro _
            exact ⟨h, hall⟩
          · intro _
            simp [answerRoute, h, hrec]
        · intro he
          exact absurd he h
        · intro _
          simp [stateAfterAnswer, answerRoute, h, hrec]
      | some out =>
        rcases out with ⟨qs2, r⟩
        have hnall : ¬ ∀ q ∈ questions, q.id ≠ qid := by
          intro hall
          rw [(updateFirstMatch_eq_none_iff qid _ questions).mpr hall] at hrec
          exact absurd hrec (by simp)
        refine ⟨?_, ?_, ?_, ?_⟩
        · simp [answerRoute, emptyAnswer, h, hrec]
        · constructor
          · intro hco
            simp [answerRoute, h, hrec] at hco
          · intro hco
            exact absurd hco.2 hnall
        · intro he
          exact absurd he h
        · intro hall
          exact absurd hall hnall

/-- Witness for C9 at a concrete input: a valid reply to an id no stored
question has leaves the stored collection unchanged. -/
theorem c9_reply_errors_witness :
    stateAfterAnswer [sampleQuestion] 99 (some "some text") none false none 3 "d"
      = [sampleQuestion] :=
  (c9_reply_errors_amended [sampleQuestion] 99 (some "some text") none false none 3 "d").2.2.2
    (by
      intro q hq
      rw [List.mem_singleton.mp hq]
      decide)

/-- Counterexample to C9 as stated: with an empty reply text and an id no
stored question has, the handler returns the validation error, not the
not-found error the claim's biconditional demands. -/
theorem c9_precedence_counterexample :
    sampleQuestion.id ≠ 99
    ∧ answerRoute [sampleQuestion] 99 (some "") none false none 0 "d"
        = ReplyResult.validationError
    ∧ ReplyResult.validationError ≠ ReplyResult.notFound := by
  refine ⟨by decide, rfl, ?_⟩
  intro h
  exact ReplyResult.noConfusion h

/-- Claim C10: with no userId in the request, the part_000 / prod like
handler derives a fresh time-based identifier per call, so each such call
(with a tick whose identifier is not yet a member) adds a member, increments
likes and reports isLiked, and two such calls on distinct ticks increment
twice — never an unlike, not an idempotent pair; the v1 handler instead uses
the fixed identifier anonymous, under which a pair of userId-less calls does
toggle one shared like back to the original state. -/
theorem c10_userid_defaults :
    (∀ (q : Question) (now : Nat), defaultUserId now ∉ q.likedBy →
      toggleLike q (likeUserId none now)
        = ({ q with likedBy := q.likedBy ++ [defaultUserId now], likes := q.likes + 1 },
           q.likes + 1, true))
    ∧ (∀ (q : Question) (now1 now2 : Nat), defaultUserId now1 ∉ q.likedBy →
        defaultUserId now2 ∉ q.likedBy → defaultUserId now1 ≠ defaultUserId now2 →
        (toggleLike (toggleLike q (likeUserId none now1)).1 (likeUserId none now2)).1.likes
          = q.likes + 2
        ∧ (toggleLike (toggleLike q (likeUserId none now1)).1 (likeUserId none now2)).2.2 = true)
    ∧ likeUserIdV1 none = "anonymous"
    ∧ (∀ q : Question, "anonymous" ∉ q.likedBy →
        (toggleLike (toggleLike q (likeUserIdV1 none)).1 (likeUserIdV1 none)).1 = q) := by
  refine ⟨?_, ?_, rfl, ?_⟩
  · intro q now h
    simp [toggleLike, likeUserId, h]
  · intro q now1 now2 h1 h2 hne
    have h2b : defaultUserId now2 ∉ q.likedBy ++ [defaultUserId now1] := by
      simp [h2]
      exact fun hc => hne hc.symm
    constructor
    · simp [toggleLike, likeUserId, h1, h2b]
    · simp [toggleLike, likeUserId, h1, h2b]
  · intro q h
    have herase : (q.likedBy ++ ["anonymous"]).erase "anonymous" = q.likedBy := by
      rw [List.erase_append_right _ (by simpa using h)]
      simp
    simp [toggleLike, likeUserIdV1, h, herase]

/-- Witness for C10 at concrete inputs: a userId-less like on the sample
question at tick 3 adds the fresh member user_3, and in the v1 handler two
userId-less calls restore the sample question exactly. -/
theorem c10_userid_defaults_witness :
    (defaultUserId 3 ∉ sampleQuestion.likedBy
      ∧ toggleLike sampleQuestion (likeUserId none 3)
          = ({ sampleQuestion with
                likedBy := sampleQuestion.likedBy ++ [defaultUserId 3]
                likes := sampleQuestion.likes + 1 },
             sampleQuestion.likes + 1, true))
    ∧ ("anonymous" ∉ sampleQuestion.likedBy
      ∧ (toggleLike (toggleLike sampleQuestion (likeUserIdV1 none)).1 (likeUserIdV1 none)).1
          = sampleQuestion) := by
  have h1 : defaultUserId 3 ∉ sampleQuestion.likedBy := by decide
  have h2 : ("anonymous" : String) ∉ sampleQuestion.likedBy := by decide
  exact ⟨⟨h1, c10_userid_defaults.1 sampleQuestion 3 h1⟩,
         ⟨h2, c10_userid_defaults.2.2.2 sampleQuestion h2⟩⟩
